import Mathlib

/-!
Verification of the telemeter single-request ingestion pipeline
(`pkg/http/server/server.go`): the `Post` handler and its
`decodeAndStoreMetrics` pipeline, embedded shallowly.

External collaborators (the exposition-format decoder, the validator, the
storage backend) are parameters of the embedding.  Repository code imported
by `server.go` but not present under `src/` (`metricfamily.Filter`,
`metricfamily.Pack`, `metricfamily.MultiTransformer`,
`ratelimited.ErrWriteLimitReached`) is modelled from the spec; each such
definition says so in its doc comment.
-/

namespace Telemeter

/-- Go error values as compared by the handler: the `io.EOF` sentinel the
decode loop checks for, the rate-limiting error value
`ratelimited.ErrWriteLimitReached(key)` the handler's switch compares
against by value, and ordinary message-carrying errors (validator errors,
decode errors, generic storage errors). -/
inductive GoError where
  | ioEOF : GoError
  | writeLimitReached (key : String) : GoError
  | errorString (msg : String) : GoError
deriving DecidableEq, Repr

/-- Modelled from the spec: `ratelimited.ErrWriteLimitReached` is not under
`src/`; the spec says the rate-limit error's message contains the partition
key, so the message embeds the key between fixed delimiters.  `err.Error()`
for the other error kinds returns their message. -/
def GoError.message : GoError → String
  | .ioEOF => "EOF"
  | .writeLimitReached key => "write limit reached for key " ++ ("\"" ++ key ++ "\"")
  | .errorString msg => msg

/-- One metric sample point; its content is opaque to this core. -/
structure Metric where
  payload : String
deriving DecidableEq, Repr

/-- `clientmodel.MetricFamily` restricted to the fields this core observes:
a (protobuf-optional) name and the list of samples. -/
structure MetricFamily where
  name : Option String
  metric : List Metric
deriving DecidableEq, Repr

/-- The zero value `&clientmodel.MetricFamily{}` the decode loop appends
before each `Decode` call: no name, no samples. -/
def zeroFamily : MetricFamily := { name := none, metric := [] }

/-- A decoded family counts as a valid decoded unit when it carries a name
and at least one sample. -/
def MetricFamily.isValid (f : MetricFamily) : Bool :=
  f.name.isSome && !f.metric.isEmpty

/-- The batch submitted to storage: `store.PartitionedMetrics`. -/
structure PartitionedMetrics where
  partitionKey : String
  families : List MetricFamily
deriving DecidableEq, Repr

/-- A transform pass: `metricfamily.Transformer.Transform(family)` returns
(keep?, error) and may rewrite the family in place; modelled as returning
the possibly-rewritten family alongside the keep flag. -/
def Transformer : Type :=
  MetricFamily → Except GoError (Bool × MetricFamily)

/-- The identity pass: keeps every family unchanged. -/
def idTransformer : Transformer :=
  fun f => .ok (true, f)

/-- A pure-rewrite pass: keeps every family, rewritten by `g`. -/
def rewriteTransformer (g : MetricFamily → MetricFamily) : Transformer :=
  fun f => .ok (true, g f)

/-- Modelled from the spec: `metricfamily.MultiTransformer` is not under
`src/`; it is the ordered transform chain the handler assembles. -/
structure MultiTransformer where
  transformers : List Transformer

/-- `MultiTransformer.With` appends one pass to the end of the chain. -/
def MultiTransformer.With (m : MultiTransformer) (t : Transformer) : MultiTransformer :=
  { transformers := m.transformers ++ [t] }

/-- Run a chain of passes over one family, in order: the first error aborts,
a pass dropping the family (keep = false) stops the chain with that verdict,
otherwise the rewritten family flows into the next pass. -/
def applyChain : List Transformer → MetricFamily → Except GoError (Bool × MetricFamily)
  | [], f => .ok (true, f)
  | t :: ts, f =>
    match t f with
    | .error e => .error e
    | .ok (false, f') => .ok (false, f')
    | .ok (true, f') => applyChain ts f'

/-- The chain as one transform pass. -/
def MultiTransformer.transform (m : MultiTransformer) (f : MetricFamily) :
    Except GoError (Bool × MetricFamily) :=
  applyChain m.transformers f

/-- Modelled from the spec: `metricfamily.Filter` is not under `src/`; one
filtering traversal of the batch in order, applying the chain to each
family, marking dropped families (`none`, the in-place `nil` assignment)
and aborting on the first pass error. -/
def Filter (t : MultiTransformer) : List MetricFamily → Except GoError (List (Option MetricFamily))
  | [] => .ok []
  | f :: fs =>
    match t.transform f with
    | .error e => .error e
    | .ok (keep, f') =>
      match Filter t fs with
      | .error e => .error e
      | .ok rest => .ok ((if keep then some f' else none) :: rest)

/-- Modelled from the spec: `metricfamily.Pack` is not under `src/`; it
normalizes the filtered batch into its final storable form, removing
dropped (`nil`) slots and families with no samples, so that (as the spec's
testable property requires) a batch of N valid families stores exactly N
families, and packing a batch of storable families with distinct names is
a no-op. -/
def Pack (fams : List (Option MetricFamily)) : List MetricFamily :=
  fams.filterMap fun f? =>
    f?.bind fun f => if f.metric.isEmpty then none else some f

/-- What the constructed `expfmt` decoder yields: the families it decodes
successfully, in order, followed by the error its next `Decode` call
returns (`ioEOF` for a clean end of stream). -/
structure DecoderStream where
  families : List MetricFamily
  ending : GoError
deriving Repr

/-- The storage collaborator: `WriteMetrics(ctx, batch)` returning `nil`
(`none`) or an error. -/
def Store : Type :=
  PartitionedMetrics → Option GoError

/-- The decode loop of `decodeAndStoreMetrics` (server.go lines 87-97):
append a fresh zero-value family, call `Decode` on it; a successful decode
fills the slot, `io.EOF` breaks out (the freshly appended zero slot stays
in the batch), any other error returns immediately, discarding the batch.
`acc` is the `families` slice accumulated so far. -/
def decodeLoop : List MetricFamily → GoError → List MetricFamily →
    Except GoError (List MetricFamily)
  | [], ending, acc =>
    if ending = .ioEOF then .ok (acc ++ [zeroFamily]) else .error ending
  | f :: fs, ending, acc => decodeLoop fs ending (acc ++ [f])

/-- The outcome of one pipeline run: the error value sent on `errCh`
(`none` = nil) and the list of `WriteMetrics` calls it made. -/
structure PipelineResult where
  result : Option GoError
  storeCalls : List PartitionedMetrics
deriving DecidableEq, Repr

/-- `(*Server).decodeAndStoreMetrics` (server.go lines 86-108): decode the
whole stream, filter through the transform chain, pack, then submit the
partitioned batch to storage; any decode or filter error returns before
storage is touched. -/
def decodeAndStoreMetrics (store : Store) (partitionKey : String)
    (decoder : DecoderStream) (transformer : MultiTransformer) : PipelineResult :=
  match decodeLoop decoder.families decoder.ending [] with
  | .error e => { result := some e, storeCalls := [] }
  | .ok families =>
    match Filter transformer families with
    | .error e => { result := some e, storeCalls := [] }
    | .ok filtered =>
      let packed := Pack filtered
      let pm : PartitionedMetrics := { partitionKey := partitionKey, families := packed }
      { result := store pm, storeCalls := [pm] }

/-- The inbound request as this handler observes it: the method, the
`Content-Encoding` header, and what the `expfmt` decoder yields on either
reading of the body (raw, or unwrapped through the snappy reader).  The
exposition-format negotiation header only parameterizes the external
decoder and is folded into these streams. -/
structure Request where
  method : String
  contentEncoding : String
  plainDecode : DecoderStream
  snappyDecode : DecoderStream

/-- server.go lines 58-63: wrap the body in a snappy reader exactly when
the `Content-Encoding` header equals "snappy", then build the decoder. -/
def requestDecoder (req : Request) : DecoderStream :=
  if req.contentEncoding = "snappy" then req.snappyDecode else req.plainDecode

/-- The transport response: status code and written body. -/
structure Response where
  status : Nat
  body : String
deriving DecidableEq, Repr

/-- Go's `http.Error(w, msg, status)`: sets the status and writes the
message followed by a newline. -/
def httpError (msg : String) (status : Nat) : Response :=
  { status := status, body := msg ++ "\n" }

/-- The validator collaborator: `Validate(ctx, req)` returns a partition
key and the request-specific transform pass, or an error. -/
def Validator : Type :=
  Request → Except GoError (String × Transformer)

/-- Everything observable about one `Post` invocation: the response
written, whether the handler's deferred `req.Body.Close()` ran, whether
the body was read, and which collaborators were invoked.  `storeCalls`
records the `WriteMetrics` calls of the pipeline goroutine, which keeps
running (fire-and-forget) even when the deadline fires first. -/
structure HandlerResult where
  response : Response
  bodyClosed : Bool
  bodyRead : Bool
  validatorInvoked : Bool
  pipelineStarted : Bool
  storeCalls : List PartitionedMetrics
deriving Repr

/-- `(*Server).Post` (server.go lines 37-84).  The race between the
context deadline and the pipeline's send on `errCh` is resolved by the
`deadlineFiresFirst` parameter: `true` selects the `<-ctx.Done()` branch of
the `select`, `false` the `<-errCh` branch. -/
def Post (validator : Validator) (serverTransformer : Transformer) (store : Store)
    (deadlineFiresFirst : Bool) (req : Request) : HandlerResult :=
  if req.method ≠ "POST" then
    -- lines 38-41: reject before `defer req.Body.Close()` is installed
    { response := { status := 405, body := "" }, bodyClosed := false,
      bodyRead := false, validatorInvoked := false, pipelineStarted := false,
      storeCalls := [] }
  else
    match validator req with
    | .error e =>
      -- lines 47-51: validation failure; the pipeline is never started
      { response := httpError e.message 500, bodyClosed := true,
        bodyRead := false, validatorInvoked := true, pipelineStarted := false,
        storeCalls := [] }
    | .ok (partitionKey, transforms) =>
      -- lines 53-55: request-specific pass first, process-wide pass second
      let t := ((MultiTransformer.mk []).With transforms).With serverTransformer
      let pipeline := decodeAndStoreMetrics store partitionKey (requestDecoder req) t
      if deadlineFiresFirst then
        -- lines 68-72: deadline branch; the goroutine is not waited for
        { response := httpError "Timeout while storing metrics" 500,
          bodyClosed := true, bodyRead := true, validatorInvoked := true,
          pipelineStarted := true, storeCalls := pipeline.storeCalls }
      else
        match pipeline.result with
        | none =>
          -- line 75-76: nil error, fall through to return with implicit 200
          { response := { status := 200, body := "" }, bodyClosed := true,
            bodyRead := true, validatorInvoked := true, pipelineStarted := true,
            storeCalls := pipeline.storeCalls }
        | some e =>
          if e = .writeLimitReached partitionKey then
            -- lines 77-78: the designated rate-limit error for this key
            { response := httpError e.message 429, bodyClosed := true,
              bodyRead := true, validatorInvoked := true, pipelineStarted := true,
              storeCalls := pipeline.storeCalls }
          else
            -- lines 79-80: every other error
            { response := httpError e.message 500, bodyClosed := true,
              bodyRead := true, validatorInvoked := true, pipelineStarted := true,
              storeCalls := pipeline.storeCalls }

/-- The capacity of `errCh` (server.go line 65, `make(chan error)`): an
unbuffered channel. -/
def errChCapacity : Nat := 0

/-- A send on a Go channel whose receiver is gone completes only by
landing in free buffer space. -/
def sendCompletesWithoutReceiver (capacity buffered : Nat) : Bool :=
  buffered < capacity

/-- `sub` occurs contiguously inside `s` (substring containment on the
underlying character data). -/
def strContains (s sub : String) : Prop :=
  sub.data <:+: s.data

/-! ### Helper lemmas about the pipeline pieces -/

/-- On a stream that ends cleanly, the decode loop returns everything
accumulated plus every decoded family plus the trailing zero-value slot. -/
theorem decodeLoop_eof (fams acc : List MetricFamily) :
    decodeLoop fams .ioEOF acc = .ok (acc ++ fams ++ [zeroFamily]) := by
  induction fams generalizing acc with
  | nil => simp [decodeLoop]
  | cons f fs ih => simp [decodeLoop, ih, List.append_assoc]

/-- On a stream that ends with a non-EOF error, the decode loop surfaces
that error, whatever was decoded before it. -/
theorem decodeLoop_err (fams acc : List MetricFamily) (e : GoError) (he : e ≠ .ioEOF) :
    decodeLoop fams e acc = .error e := by
  induction fams generalizing acc with
  | nil => simp [decodeLoop, he]
  | cons f fs ih => simp [decodeLoop, ih]

/-- A chain of two pure-rewrite passes keeps every family and applies the
first pass before the second. -/
theorem transform_rewrite_pair (g1 g2 : MetricFamily → MetricFamily) (f : MetricFamily) :
    (MultiTransformer.mk [rewriteTransformer g1, rewriteTransformer g2]).transform f =
      .ok (true, g2 (g1 f)) := rfl

/-- Filtering through a chain of two pure-rewrite passes keeps the whole
batch, each family rewritten by the first pass then the second. -/
theorem Filter_rewrite_pair (g1 g2 : MetricFamily → MetricFamily) (fs : List MetricFamily) :
    Filter (MultiTransformer.mk [rewriteTransformer g1, rewriteTransformer g2]) fs =
      .ok (fs.map fun f => some (g2 (g1 f))) := by
  induction fs with
  | nil => rfl
  | cons f fs ih => simp [Filter, transform_rewrite_pair, ih]

/-- The identity pass is the pure rewrite by the identity function. -/
theorem idTransformer_eq_rewrite : idTransformer = rewriteTransformer id := rfl

/-- Packing distributes over batch concatenation. -/
theorem Pack_append (xs ys : List (Option MetricFamily)) :
    Pack (xs ++ ys) = Pack xs ++ Pack ys := by
  simp [Pack, List.filterMap_append]

/-- Packing removes the zero-value family (it has no samples). -/
theorem Pack_zero_slot : Pack [some zeroFamily] = [] := rfl

/-- Packing keeps a batch of kept families untouched when every family has
at least one sample. -/
theorem Pack_map_some (fs : List MetricFamily) (h : ∀ f ∈ fs, f.metric ≠ []) :
    Pack (fs.map some) = fs := by
  induction fs with
  | nil => rfl
  | cons f fs ih =>
    have hf : f.metric ≠ [] := h f (List.mem_cons_self f fs)
    have hrest : ∀ g ∈ fs, g.metric ≠ [] := fun g hg => h g (List.mem_cons_of_mem f hg)
    simp [Pack] at ih ⊢
    simp [List.isEmpty_iff, hf, ih hrest]

/-- A valid family has at least one sample. -/
theorem isValid_metric_ne_nil (f : MetricFamily) (h : f.isValid = true) : f.metric ≠ [] := by
  simp [MetricFamily.isValid, List.isEmpty_iff] at h
  exact h.2

/-! ### Concrete fixtures used by witnesses and counterexamples -/

/-- A decoder stream with no families and a clean end of stream. -/
def emptyEofStream : DecoderStream := { families := [], ending := .ioEOF }

/-- A well-formed POST request with the given plain-body decode stream. -/
def postRequest (d : DecoderStream) : Request :=
  { method := "POST", contentEncoding := "", plainDecode := d,
    snappyDecode := emptyEofStream }

/-- A GET request (otherwise identical to `postRequest emptyEofStream`). -/
def getRequest : Request :=
  { method := "GET", contentEncoding := "", plainDecode := emptyEofStream,
    snappyDecode := emptyEofStream }

/-- A validator that accepts with key "p1" and the identity pass. -/
def okValidator : Validator := fun _ => .ok ("p1", idTransformer)

/-- A storage stub that always succeeds. -/
def okStore : Store := fun _ => none

/-- Two sample families with distinct names, one sample each. -/
def famA : MetricFamily := { name := some "alpha", metric := [{ payload := "a1" }] }

/-- Second sample family, see `famA`. -/
def famB : MetricFamily := { name := some "beta", metric := [{ payload := "b1" }] }

/-! ### Claim theorems -/

/-- C10: the decode loop appends a fresh zero-value family before each
`Decode` call, so a stream of N families ending cleanly hands the
transform/filter step a batch of length N + 1 whose last element is the
never-filled zero-value family; in particular, for an empty body the batch
entering transform/pack is the non-empty `[zeroFamily]`. -/
theorem C10_trailing_zero_family (fams : List MetricFamily) :
    decodeLoop fams .ioEOF [] = .ok (fams ++ [zeroFamily]) ∧
    (fams ++ [zeroFamily]).length = fams.length + 1 ∧
    (fams ++ [zeroFamily]).getLast? = some zeroFamily ∧
    decodeLoop [] .ioEOF [] = .ok [zeroFamily] := by
  refine ⟨?_, by simp, by simp, by simp [decodeLoop]⟩
  have h := decodeLoop_eof fams []
  simpa using h

/-- C3: when the decoder reports a non-EOF error after K successfully
decoded families (any K ≥ 0), the pipeline returns that error and never
calls the storage collaborator's WriteMetrics. -/
theorem C3_decode_error_aborts (store : Store) (pk : String)
    (t : MultiTransformer) (fams : List MetricFamily) (e : GoError)
    (he : e ≠ .ioEOF) :
    decodeAndStoreMetrics store pk { families := fams, ending := e } t =
      { result := some e, storeCalls := [] } := by
  simp [decodeAndStoreMetrics, decodeLoop_err fams [] e he]

/-- C3 witness: a stream that fails immediately (K = 0) yields that decode
failure and no storage call. -/
theorem C3_decode_error_aborts_witness :
    (GoError.errorString "unexpected byte" ≠ GoError.ioEOF) ∧
    decodeAndStoreMetrics okStore "p1"
        { families := [famA], ending := .errorString "unexpected byte" }
        (MultiTransformer.mk []) =
      { result := some (.errorString "unexpected byte"), storeCalls := [] } :=
  ⟨by decide,
   C3_decode_error_aborts okStore "p1" (MultiTransformer.mk []) [famA]
     (.errorString "unexpected byte") (by decide)⟩

/-- C7: a request whose method is not POST is answered with 405 and an
empty body, and nothing else happens: the body is neither read nor closed
by the handler, and the validator, decoder and storage are never
invoked. -/
theorem C7_method_not_allowed (validator : Validator) (st : Transformer)
    (store : Store) (dff : Bool) (req : Request) (hm : req.method ≠ "POST") :
    Post validator st store dff req =
      { response := { status := 405, body := "" }, bodyClosed := false,
        bodyRead := false, validatorInvoked := false, pipelineStarted := false,
        storeCalls := [] } := by
  simp [Post, hm]

/-- C7 witness: the GET request is rejected with 405 and no processing. -/
theorem C7_method_not_allowed_witness :
    Post okValidator idTransformer okStore false getRequest =
      { response := { status := 405, body := "" }, bodyClosed := false,
        bodyRead := false, validatorInvoked := false, pipelineStarted := false,
        storeCalls := [] } :=
  C7_method_not_allowed okValidator idTransformer okStore false getRequest
    (by decide)

/-- C5: when the validator fails, the handler answers 500 with the
validator's error message, the pipeline is never started, the body is
never read, and storage is never invoked. -/
theorem C5_validator_error (validator : Validator) (st : Transformer)
    (store : Store) (dff : Bool) (req : Request) (e : GoError)
    (hm : req.method = "POST") (hv : validator req = .error e) :
    Post validator st store dff req =
      { response := httpError e.message 500, bodyClosed := true,
        bodyRead := false, validatorInvoked := true, pipelineStarted := false,
        storeCalls := [] } := by
  simp [Post, hm, hv]

/-- C5 witness: a validator that rejects with "unauthorized" produces the
500 with that message and no pipeline activity. -/
theorem C5_validator_error_witness :
    Post (fun _ => .error (.errorString "unauthorized")) idTransformer okStore
        false (postRequest emptyEofStream) =
      { response := httpError (GoError.errorString "unauthorized").message 500,
        bodyClosed := true, bodyRead := false, validatorInvoked := true,
        pipelineStarted := false, storeCalls := [] } :=
  C5_validator_error (fun _ => .error (.errorString "unauthorized"))
    idTransformer okStore false (postRequest emptyEofStream)
    (.errorString "unauthorized") rfl rfl

/-- C4: when the deadline fires before the pipeline delivers its outcome,
the handler answers 500 with the fixed timeout message — for every storage
behavior and every decoder stream, i.e. regardless of how far the pipeline
has progressed — and returns without consuming the pipeline's outcome. -/
theorem C4_timeout_response (validator : Validator) (st : Transformer)
    (store : Store) (req : Request) (pk : String) (tr : Transformer)
    (hm : req.method = "POST") (hv : validator req = .ok (pk, tr)) :
    (Post validator st store true req).response =
      { status := 500, body := "Timeout while storing metrics\n" } := by
  simp [Post, hm, hv, httpError]

/-- C4 witness: a concrete timed-out request gets the fixed 500 body. -/
theorem C4_timeout_response_witness :
    (Post okValidator idTransformer okStore true (postRequest emptyEofStream)).response =
      { status := 500, body := "Timeout while storing metrics\n" } :=
  C4_timeout_response okValidator idTransformer okStore
    (postRequest emptyEofStream) "p1" idTransformer rfl rfl

/-- The batch the handler's pipeline submits to storage does not depend on
which way the deadline race resolves nor on how the outcome is mapped to a
status: `Post`'s store calls are the pipeline's store calls. -/
theorem Post_storeCalls (validator : Validator) (st : Transformer)
    (store : Store) (dff : Bool) (req : Request) (pk : String) (tr : Transformer)
    (hm : req.method = "POST") (hv : validator req = .ok (pk, tr)) :
    (Post validator st store dff req).storeCalls =
      (decodeAndStoreMetrics store pk (requestDecoder req)
        (((MultiTransformer.mk []).With tr).With st)).storeCalls := by
  cases dff with
  | true => simp [Post, hm, hv]
  | false =>
    simp only [Post, hm, ne_eq, not_true_eq_false, if_false, hv]
    cases hres : (decodeAndStoreMetrics store pk (requestDecoder req)
        (((MultiTransformer.mk []).With tr).With st)).result with
    | none => simp [hres]
    | some e =>
      by_cases he : e = .writeLimitReached pk <;> simp [hres, he]

/-- C1: for a well-formed, uncompressed body of N valid families with
pairwise-distinct names and an identity transform chain, the batch passed
to the storage collaborator's WriteMetrics is exactly the N decoded
families (the trailing zero-value slot is packed away), so it has exactly
N families. -/
theorem C1_identity_chain_stores_exactly_n (validator : Validator)
    (store : Store) (dff : Bool) (req : Request) (pk : String)
    (fams : List MetricFamily)
    (hm : req.method = "POST")
    (henc : req.contentEncoding ≠ "snappy")
    (hv : validator req = .ok (pk, idTransformer))
    (hd : req.plainDecode = { families := fams, ending := .ioEOF })
    (hvalid : ∀ f ∈ fams, f.isValid = true)
    (hnames : fams.Pairwise fun a b => a.name ≠ b.name) :
    (Post validator idTransformer store dff req).storeCalls =
      [{ partitionKey := pk, families := fams }] ∧
    ({ partitionKey := pk, families := fams } : PartitionedMetrics).families.length
      = fams.length := by
  refine ⟨?_, rfl⟩
  rw [Post_storeCalls validator idTransformer store dff req pk idTransformer hm hv]
  have hdec : requestDecoder req = { families := fams, ending := .ioEOF } := by
    simp [requestDecoder, henc, hd]
  have hmetric : ∀ f ∈ fams, f.metric ≠ [] :=
    fun f hf => isValid_metric_ne_nil f (hvalid f hf)
  rw [hdec]
  simp only [decodeAndStoreMetrics, decodeLoop_eof fams [], List.nil_append,
    MultiTransformer.With, idTransformer_eq_rewrite, List.append_nil,
    Filter_rewrite_pair, id_eq]
  simp [Filter_rewrite_pair, List.map_append, Pack_append,
    Pack_map_some fams hmetric, Pack_zero_slot]

/-- C1 witness: two valid families with distinct names are stored as
exactly those two families. -/
theorem C1_identity_chain_stores_exactly_n_witness :
    (Post okValidator idTransformer okStore false
        (postRequest { families := [famA, famB], ending := .ioEOF })).storeCalls =
      [{ partitionKey := "p1", families := [famA, famB] }] ∧
    ({ partitionKey := "p1", families := [famA, famB] } : PartitionedMetrics).families.length
      = [famA, famB].length :=
  C1_identity_chain_stores_exactly_n okValidator okStore false
    (postRequest { families := [famA, famB], ending := .ioEOF }) "p1" [famA, famB]
    rfl (by decide) rfl rfl (by decide) (by decide)

/-- C8: the transform chain the handler builds is the validator's
request-specific pass followed by the process-wide pass, applied in that
order (first `g1`, then `g2`) to each family of the decoded batch, in
batch order. -/
theorem C8_chain_order (validator : Validator) (store : Store) (dff : Bool)
    (req : Request) (pk : String) (g1 g2 : MetricFamily → MetricFamily)
    (hm : req.method = "POST")
    (hv : validator req = .ok (pk, rewriteTransformer g1))
    (hd : (requestDecoder req).ending = .ioEOF) :
    (Post validator (rewriteTransformer g2) store dff req).storeCalls =
      [{ partitionKey := pk,
         families := Pack (((requestDecoder req).families ++ [zeroFamily]).map
           fun f => some (g2 (g1 f))) }] := by
  rw [Post_storeCalls validator (rewriteTransformer g2) store dff req pk
    (rewriteTransformer g1) hm hv]
  cases hD : requestDecoder req with
  | mk dfams dend =>
    rw [hD] at hd
    subst hd
    simp only [decodeAndStoreMetrics, decodeLoop_eof dfams [], List.nil_append,
      MultiTransformer.With, List.singleton_append, Filter_rewrite_pair]

/-- C8 witness: a request pass that renames each family runs before a
process-wide pass that tags the name, observable in the stored batch. -/
theorem C8_chain_order_witness :
    (Post (fun _ => .ok ("p1",
          rewriteTransformer fun f => { f with name := some "renamed" }))
        (rewriteTransformer fun f => { f with metric := [] }) okStore false
        (postRequest { families := [famA], ending := .ioEOF })).storeCalls =
      [{ partitionKey := "p1",
         families := Pack ((((requestDecoder
             (postRequest { families := [famA], ending := .ioEOF })).families
             ++ [zeroFamily]).map
           fun f => some ({ ({ f with name := some "renamed" } : MetricFamily)
             with metric := [] } : MetricFamily))) }] :=
  C8_chain_order
    (fun _ => .ok ("p1", rewriteTransformer fun f => { f with name := some "renamed" }))
    okStore false (postRequest { families := [famA], ending := .ioEOF }) "p1"
    (fun f => { f with name := some "renamed" })
    (fun f => { f with metric := [] }) rfl rfl rfl

/-- C2: when storage was invoked and returned the designated write-limit
error for the request's partition key, the handler answers 429 with a body
carrying that error's message, which contains the key; any other storage
error is answered with 500. -/
theorem C2_storage_error_statuses (validator : Validator) (st : Transformer)
    (store : Store) (req : Request) (pk : String) (tr : Transformer)
    (e : GoError) (pm : PartitionedMetrics)
    (hm : req.method = "POST") (hv : validator req = .ok (pk, tr))
    (hp : decodeAndStoreMetrics store pk (requestDecoder req)
        (((MultiTransformer.mk []).With tr).With st) =
      { result := some e, storeCalls := [pm] }) :
    (e = .writeLimitReached pk →
      (Post validator st store false req).response = httpError e.message 429 ∧
      strContains (Post validator st store false req).response.body pk) ∧
    (e ≠ .writeLimitReached pk →
      (Post validator st store false req).response.status = 500) := by
  constructor
  · intro he
    subst he
    have hpost : (Post validator st store false req).response =
        httpError (GoError.writeLimitReached pk).message 429 := by
      simp [Post, hm, hv, hp]
    refine ⟨hpost, ?_⟩
    rw [hpost]
    refine ⟨("write limit reached for key " ++ "\"").data, ("\"" ++ "\n").data, ?_⟩
    simp [httpError, GoError.message, String.data_append]
  · intro he
    simp [Post, hm, hv, hp, he, httpError]

/-- C2 witness: a store returning the write-limit error for the request's
key "p1" yields 429 with the key in the body; the hypotheses are
discharged on a concrete empty-body request. -/
theorem C2_storage_error_statuses_witness :
    (GoError.writeLimitReached "p1" = .writeLimitReached "p1" →
      (Post okValidator idTransformer
          (fun _ => some (.writeLimitReached "p1")) false
          (postRequest emptyEofStream)).response =
        httpError (GoError.writeLimitReached "p1").message 429 ∧
      strContains (Post okValidator idTransformer
          (fun _ => some (.writeLimitReached "p1")) false
          (postRequest emptyEofStream)).response.body "p1") ∧
    (GoError.writeLimitReached "p1" ≠ .writeLimitReached "p1" →
      (Post okValidator idTransformer
          (fun _ => some (.writeLimitReached "p1")) false
          (postRequest emptyEofStream)).response.status = 500) :=
  C2_storage_error_statuses okValidator idTransformer
    (fun _ => some (.writeLimitReached "p1")) (postRequest emptyEofStream)
    "p1" idTransformer (.writeLimitReached "p1")
    { partitionKey := "p1", families := [] } rfl rfl rfl

/-- C9 counterexample: the claim says the handler closes the request body
on every exit path including the method-not-allowed rejection, but on a
GET request `Post` returns before `defer req.Body.Close()` is installed,
so the handler does not close the body there. -/
theorem C9_counterexample_get_body_not_closed :
    (Post okValidator idTransformer okStore false getRequest).bodyClosed = false := rfl

/-- C9 (amended): on every exit path reached after the method check —
validation failure, timeout, and all pipeline outcomes — the handler
closes the request body; the method-not-allowed rejection returns before
the deferred close is installed. -/
theorem C9_amended_body_closed_after_method_check (validator : Validator)
    (st : Transformer) (store : Store) (dff : Bool) (req : Request)
    (hm : req.method = "POST") :
    (Post validator st store dff req).bodyClosed = true := by
  cases hval : validator req with
  | error e => simp [Post, hm, hval]
  | ok p =>
    obtain ⟨pk, tr⟩ := p
    cases dff with
    | true => simp [Post, hm, hval]
    | false =>
      simp only [Post, hm, ne_eq, not_true_eq_false, if_false, hval]
      cases hres : (decodeAndStoreMetrics store pk (requestDecoder req)
          (((MultiTransformer.mk []).With tr).With st)).result with
      | none => simp [hres]
      | some e =>
        by_cases he : e = .writeLimitReached pk <;> simp [hres, he]

/-- C9 amended-claim witness: a closed POST request instance on which the
body is closed. -/
theorem C9_amended_body_closed_witness :
    (Post okValidator idTransformer okStore false
        (postRequest emptyEofStream)).bodyClosed = true :=
  C9_amended_body_closed_after_method_check okValidator idTransformer okStore
    false (postRequest emptyEofStream) rfl

/-- C6: the claim states the pipeline's send of its outcome never blocks
indefinitely even when the handler stopped listening; but `errCh` is
created unbuffered (`make(chan error)`, capacity 0), and a send on a
capacity-0 channel with no receiver never completes, whatever is
buffered — the blocked-forever send the spec's design notes flag as a
latent defect. -/
theorem C6_unbuffered_errCh_send_blocks :
    errChCapacity = 0 ∧
    sendCompletesWithoutReceiver errChCapacity 0 = false ∧
    ∀ buffered : Nat, sendCompletesWithoutReceiver errChCapacity buffered = false := by
  refine ⟨rfl, rfl, fun b => ?_⟩
  simp [sendCompletesWithoutReceiver, errChCapacity]

end Telemeter
